import Mathlib

/-!
Shallow embedding of src/src2/model.py: three PyTorch-Lightning task modules
(binary sequence classification via MainModel, token classification, and Auto
sequence classification) together with the sklearn metric functions and torch
primitives they call.  Float tensors are modelled by exact rationals wherever
only arithmetic and order comparisons matter, and by real numbers where the
code applies sigmoid, log or exp.  Logging is modelled by returning the list
of (metric name, value) pairs that the hooks pass to self.log.
-/

/-- Conversion of a rational to an integer by truncation toward zero, the
semantics of a torch float-to-int dtype cast (tensor.to(dtype=int)). -/
def ratToInt (q : ℚ) : ℤ := q.num.tdiv q.den

/-- Coercion of a boolean to the integer 0 or 1, the implicit numpy coercion
when sklearn compares a boolean prediction array with an integer array. -/
def boolToInt (b : Bool) : ℤ := if b then 1 else 0

namespace sklearn

/-- Function metrics.accuracy_score on two equally long label vectors: the
fraction of positions where the two agree. -/
def accuracy_score (a b : List ℤ) : ℚ :=
  (((a.zip b).filter (fun p => decide (p.1 = p.2))).length : ℚ) / (a.length : ℚ)

/-- One-vs-rest F1 of class c: 2*TP/(2*TP+FP+FN), and 0 when the denominator
is 0 (the sklearn zero_division default). -/
def f1_class (ytrue ypred : List ℤ) (c : ℤ) : ℚ :=
  let pairs := ytrue.zip ypred
  let tp := (pairs.filter (fun p => decide (p.1 = c ∧ p.2 = c))).length
  let fp := (pairs.filter (fun p => decide (p.1 ≠ c ∧ p.2 = c))).length
  let fm := (pairs.filter (fun p => decide (p.1 = c ∧ p.2 ≠ c))).length
  ((2 * tp : ℕ) : ℚ) / ((2 * tp + fp + fm : ℕ) : ℚ)

/-- Function metrics.f1_score with default binary averaging: the F1 of the
positive class 1. -/
def f1_score (ytrue ypred : List ℤ) : ℚ := f1_class ytrue ypred 1

/-- Support of class c: its number of occurrences in the true labels. -/
def support (ytrue : List ℤ) (c : ℤ) : ℕ :=
  (ytrue.filter (fun t => decide (t = c))).length

/-- Function metrics.f1_score with average="weighted": the support-weighted
mean of the per-class F1 scores, over the classes occurring in either array. -/
def f1_score_weighted (ytrue ypred : List ℤ) : ℚ :=
  ((((ytrue ++ ypred).dedup).map
      (fun c => (support ytrue c : ℚ) * f1_class ytrue ypred c)).sum)
    / (ytrue.length : ℚ)

end sklearn

namespace torch

/-- Logistic sigmoid over the reals (torch.sigmoid). -/
noncomputable def sigmoid (x : ℝ) : ℝ := 1 / (1 + Real.exp (-x))

open Classical in
/-- Boolean test sigmoid(x) >= 0.5, the elementwise comparison the binary
epoch hooks apply to the concatenated logits. -/
noncomputable def sigmoidGeHalf (x : ℝ) : Bool := decide (1 / 2 ≤ sigmoid x)

/-- Auxiliary scan for argmax: index and value of the best element so far,
replaced only on a strictly larger value. -/
def argmaxGo (bi : ℕ) (bv : ℚ) (i : ℕ) : List ℚ → ℕ
  | [] => bi
  | x :: xs => if bv < x then argmaxGo i x (i + 1) xs else argmaxGo bi bv (i + 1) xs

/-- Function torch.argmax on a vector: the index of the first maximal value. -/
def argmax (l : List ℚ) : ℕ :=
  match l with
  | [] => 0
  | x :: xs => argmaxGo 0 x 1 xs

/-- Tensor as a shape together with flat row-major data. -/
structure Tensor (α : Type) where
  shape : List ℕ
  data : List α

/-- Method tensor.squeeze(): drop every dimension of extent 1. -/
def Tensor.squeeze {α : Type} (t : Tensor α) : Tensor α :=
  ⟨t.shape.filter (fun d => decide (d ≠ 1)), t.data⟩

/-- Function torch.cat on one-dimensional tensors: concatenation of the data. -/
def cat {α : Type} (ts : List (Tensor α)) : List α := (ts.map Tensor.data).flatten

/-- Mean binary cross entropy with logits on the raw values (only reached when
the shapes agree). -/
noncomputable def bceWithLogitsValue (x : List ℝ) (y : List ℚ) : ℝ :=
  -(((x.zip y).map (fun p => (p.2 : ℝ) * Real.log (sigmoid p.1)
      + (1 - (p.2 : ℝ)) * Real.log (1 - sigmoid p.1))).sum) / (x.length : ℝ)

/-- Loss nn.BCEWithLogitsLoss: raises a ValueError when the target shape
differs from the input shape, otherwise the mean elementwise loss. -/
noncomputable def BCEWithLogitsLoss (input : Tensor ℝ) (target : Tensor ℚ) :
    Except (List Char) ℝ :=
  if input.shape = target.shape then
    Except.ok (bceWithLogitsValue input.data target.data)
  else
    Except.error ((r"Target size must be the same as input size").toList)

end torch

/-- Hyperparameter snapshot stored by save_hyperparameters at construction:
attribute-accessible configuration with the fields the modules read. -/
structure HParams where
  base_path : List Char
  base_lr : ℚ
  linear_lr : ℚ
  num_labels : ℕ

/-- Parameter group handed to the AdamW optimizer: a list of parameters and
the learning rate assigned to them. -/
structure ParamGroup (P : Type) where
  params : List P
  lr : ℚ

/-- Optimizer configuration produced by configure_optimizers: the ordered
parameter groups and the default learning rate passed to AdamW. -/
structure Optim (P : Type) where
  param_groups : List (ParamGroup P)
  defaults_lr : ℚ

namespace MainModel

/-- Output tuple of the pretrained encoder: sequence output at index 0 and
pooled output at index 1, so that base_out[1] is the second component. -/
def BaseOut : Type := List (List ℝ) × List (List ℝ)

/-- Dropout on one row, torch semantics: identity in eval mode; in training
mode each entry is multiplied by its Bernoulli mask value scaled by 1/(1-p). -/
noncomputable def dropoutRow (p : ℝ) (training : Bool) (mask row : List ℝ) : List ℝ :=
  if training then (mask.zip row).map (fun mv => mv.1 * mv.2 / (1 - p)) else row

/-- Dropout on a matrix: rowwise application of dropoutRow. -/
noncomputable def dropoutMat (p : ℝ) (training : Bool) (mask x : List (List ℝ)) : List (List ℝ) :=
  if training then (mask.zip x).map (fun mr => dropoutRow p true mr.1 mr.2) else x

/-- Dense layer with a single output unit: the declared input dimension, the
one weight row, and the bias of nn.Linear(in_features, 1). -/
structure Linear where
  in_features : ℕ
  weight : List ℝ
  bias : ℝ

/-- Linear head applied to one row: dot product of the weight row with the
input row plus the bias, a single output unit with no activation. -/
noncomputable def linearRow (l : Linear) (row : List ℝ) : List ℝ :=
  [((l.weight.zip row).map (fun p => p.1 * p.2)).sum + l.bias]

/-- State of MainModel after construction: the pretrained encoder loaded from
base_path, the dropout probability fixed by the constructor, and the linear
head. -/
structure State where
  base : List (List ℤ) → List (List ℤ) → BaseOut
  dropout_p : ℝ
  linear : Linear

/-- Constructor of MainModel: nn.Dropout(0.3) and nn.Linear(768, 1) with the
given (learned) head weights. -/
noncomputable def init (base : List (List ℤ) → List (List ℤ) → BaseOut)
    (w : List ℝ) (b : ℝ) : State :=
  ⟨base, 3 / 10, ⟨768, w, b⟩⟩

/-- Method MainModel.forward: run the encoder, take the second (pooled)
element of its output, apply dropout, apply the linear head. -/
noncomputable def forward (m : State) (training : Bool) (mask : List (List ℝ))
    (ids_seq attn_masks : List (List ℤ)) : List (List ℝ) :=
  let base_out := m.base ids_seq attn_masks
  let max_out := dropoutMat m.dropout_p training mask base_out.2
  max_out.map (linearRow m.linear)

end MainModel

namespace SequenceClassicationLightningModule

/-- Batch consumed by the binary module: keys ids_seq, attn_masks, target. -/
structure Batch where
  ids_seq : torch.Tensor ℤ
  attn_masks : torch.Tensor ℤ
  target : torch.Tensor ℚ

/-- Dictionary returned by the step hooks.  The loss key is an Option because
validation_step omits it while training_step includes it. -/
structure StepOutput where
  loss : Option ℝ
  logits : torch.Tensor ℝ
  true_preds : torch.Tensor ℚ

/-- Static method loss: BCEWithLogitsLoss applied to (logits, targets). -/
noncomputable def loss (logits : torch.Tensor ℝ) (targets : torch.Tensor ℚ) :
    Except (List Char) ℝ :=
  torch.BCEWithLogitsLoss logits targets

/-- Method shared_step: run the wrapped model on ids_seq and attn_masks,
squeeze the logits, compute the loss; failures propagate to the caller. -/
noncomputable def shared_step (model : torch.Tensor ℤ → torch.Tensor ℤ → torch.Tensor ℝ)
    (batch : Batch) : Except (List Char) (torch.Tensor ℝ × ℝ) := do
  let logits := (model batch.ids_seq batch.attn_masks).squeeze
  let l ← loss logits batch.target
  return (logits, l)

/-- Method training_step: run shared_step and return the dictionary with keys
loss, logits and true_preds. -/
noncomputable def training_step (model : torch.Tensor ℤ → torch.Tensor ℤ → torch.Tensor ℝ)
    (batch : Batch) : Except (List Char) StepOutput := do
  let (logits, l) ← shared_step model batch
  return ⟨some l, logits, batch.target⟩

/-- Method validation_step: run shared_step and return the dictionary with
keys logits and true_preds only; the loss is logged but not returned. -/
noncomputable def validation_step (model : torch.Tensor ℤ → torch.Tensor ℤ → torch.Tensor ℝ)
    (batch : Batch) : Except (List Char) StepOutput := do
  let (logits, _) ← shared_step model batch
  return ⟨none, logits, batch.target⟩

/-- Method configure_optimizers: one group for the encoder parameters at
base_lr, one for the linear head at linear_lr, default lr base_lr. -/
def configure_optimizers {P : Type} (base_params linear_params : List P)
    (hparams : HParams) : Optim P :=
  ⟨[⟨base_params, hparams.base_lr⟩, ⟨linear_params, hparams.linear_lr⟩],
    hparams.base_lr⟩

/-- Method training_epoch_end: concatenate the buffered logits, apply sigmoid
and threshold at 0.5, concatenate the true targets cast to int, compute
accuracy and binary F1 (with the argument order of the source), and log them
under train_acc and train_f1. -/
noncomputable def training_epoch_end (outs : List StepOutput) : List (String × ℚ) :=
  let y_pred := (torch.cat (outs.map StepOutput.logits)).map torch.sigmoidGeHalf
  let y_true := (torch.cat (outs.map StepOutput.true_preds)).map ratToInt
  let acc := sklearn.accuracy_score (y_pred.map boolToInt) y_true
  let f1 := sklearn.f1_score (y_pred.map boolToInt) y_true
  [(r"train_acc", acc), (r"train_f1", f1)]

/-- Method validation_epoch_end: the same pipeline as training_epoch_end,
logged under val_acc and val_f1. -/
noncomputable def validation_epoch_end (outs : List StepOutput) : List (String × ℚ) :=
  let y_pred := (torch.cat (outs.map StepOutput.logits)).map torch.sigmoidGeHalf
  let y_true := (torch.cat (outs.map StepOutput.true_preds)).map ratToInt
  let acc := sklearn.accuracy_score (y_pred.map boolToInt) y_true
  let f1 := sklearn.f1_score (y_pred.map boolToInt) y_true
  [(r"val_acc", acc), (r"val_f1", f1)]

end SequenceClassicationLightningModule

namespace numpy

/-- Numpy comparison arr != c: the elementwise boolean mask. -/
def neMask (ys : List ℤ) (c : ℤ) : List Bool := ys.map (fun t => decide (t ≠ c))

/-- Numpy boolean-mask indexing arr[mask]: keep the entries whose mask entry
is true. -/
def maskIndex {α : Type} (mask : List Bool) (xs : List α) : List α :=
  ((mask.zip xs).filter (fun p => p.1)).map (fun p => p.2)

end numpy

/-- Test whether needle occurs as a contiguous substring of hay, the Python
expression (needle in hay) on strings. -/
def hasSubstring (needle : List Char) : List Char → Bool
  | [] => needle.isEmpty
  | c :: rest => needle.isPrefixOf (c :: rest) || hasSubstring needle rest

/-- Buffer accumulation performed by the trainer around the step hooks:
starting from the empty buffer, append each step's output as its batch
arrives. -/
def runEpoch {β γ : Type} (step : β → γ) (batches : List β) : List γ :=
  batches.foldl (fun acc b => acc ++ [step b]) []

namespace LightningModuleForTokenClassification

/-- Batch for the token module: an opaque feature part forwarded to the
wrapped model plus the labels key, one integer label row per sequence. -/
structure Batch (F : Type) where
  features : F
  labels : List (List ℤ)

/-- Output dictionary of the wrapped AutoModelForTokenClassification: its own
loss and per-token logits of shape (batch, seq, num_labels). -/
structure ModelOutput where
  loss : ℝ
  logits : List (List (List ℚ))

/-- Dictionary returned by the step hooks; the loss key is an Option because
the validation and test variants omit it. -/
structure StepOutput where
  loss : Option ℝ
  logits : List (List (List ℚ))
  true_preds : List (List ℤ)

/-- Method training_step: run the model on the batch and return the
dictionary with keys loss, logits and true_preds. -/
def training_step {F : Type} (model : Batch F → ModelOutput) (batch : Batch F) :
    StepOutput :=
  let output := model batch
  ⟨some output.loss, output.logits, batch.labels⟩

/-- Method validation_step: run the model and return logits and true_preds
only; the loss is logged but not part of the returned dictionary. -/
def validation_step {F : Type} (model : Batch F → ModelOutput) (batch : Batch F) :
    StepOutput :=
  let output := model batch
  ⟨none, output.logits, batch.labels⟩

/-- Method test_step: same dictionary as validation_step. -/
def test_step {F : Type} (model : Batch F → ModelOutput) (batch : Batch F) :
    StepOutput :=
  let output := model batch
  ⟨none, output.logits, batch.labels⟩

/-- Predicate is_backbone of configure_optimizers: the parameter name does
not contain the substring classifier. -/
def is_backbone (n : List Char) : Bool := ! hasSubstring ((r"classifier").toList) n

/-- Method configure_optimizers: split the named parameters into the backbone
group (names without classifier) at base_lr and the classifier group at
linear_lr; the AdamW default lr is base_lr. -/
def configure_optimizers {P : Type} (params : List (List Char × P))
    (hparams : HParams) : Optim P :=
  ⟨[⟨(params.filter (fun np => is_backbone np.1)).map Prod.snd, hparams.base_lr⟩,
    ⟨(params.filter (fun np => ! is_backbone np.1)).map Prod.snd, hparams.linear_lr⟩],
    hparams.base_lr⟩

/-- Epoch prediction array: per step, argmax of the logits over the last
dimension flattened with view(-1), then concatenated with torch.cat. -/
def y_pred_of (outs : List StepOutput) : List ℤ :=
  (outs.map (fun out =>
    (out.logits.map (fun seq => seq.map (fun v => (torch.argmax v : ℤ)))).flatten)).flatten

/-- Epoch label array: per step, the true labels flattened with view(-1),
then concatenated with torch.cat. -/
def y_true_of (outs : List StepOutput) : List ℤ :=
  (outs.map (fun out => out.true_preds.flatten)).flatten

/-- Method training_epoch_end: build the flattened arrays, mask away the
positions whose true label is -100 from both, then log accuracy and weighted
F1 under train_acc and train_f1. -/
def training_epoch_end (outs : List StepOutput) : List (String × ℚ) :=
  let y_pred := y_pred_of outs
  let y_true := y_true_of outs
  let mask := numpy.neMask y_true (-100)
  let y_true2 := numpy.maskIndex mask y_true
  let y_pred2 := numpy.maskIndex mask y_pred
  let acc := sklearn.accuracy_score y_true2 y_pred2
  let f1 := sklearn.f1_score_weighted y_true2 y_pred2
  [(r"train_acc", acc), (r"train_f1", f1)]

/-- Method validation_epoch_end: the mask is computed but never applied, so
accuracy and weighted F1 are taken over the unfiltered arrays and logged
under val_acc and val_f1. -/
def validation_epoch_end (outs : List StepOutput) : List (String × ℚ) :=
  let y_pred := y_pred_of outs
  let y_true := y_true_of outs
  let _mask := numpy.neMask y_true (-100)
  let acc := sklearn.accuracy_score y_true y_pred
  let f1 := sklearn.f1_score_weighted y_true y_pred
  [(r"val_acc", acc), (r"val_f1", f1)]

/-- Method test_epoch_end: same unfiltered computation as validation, logged
under test_acc and test_f1. -/
def test_epoch_end (outs : List StepOutput) : List (String × ℚ) :=
  let y_pred := y_pred_of outs
  let y_true := y_true_of outs
  let _mask := numpy.neMask y_true (-100)
  let acc := sklearn.accuracy_score y_true y_pred
  let f1 := sklearn.f1_score_weighted y_true y_pred
  [(r"test_acc", acc), (r"test_f1", f1)]

end LightningModuleForTokenClassification

namespace LightningModuleForAutoModels

/-- Batch for the Auto module: an opaque feature part forwarded to the
wrapped model plus the labels key, one integer class label per sample. -/
structure Batch (F : Type) where
  features : F
  labels : List ℤ

/-- Output dictionary of the wrapped AutoModelForSequenceClassification: its
own loss and per-sample logits of shape (batch, num_labels). -/
structure ModelOutput where
  loss : ℝ
  logits : List (List ℚ)

/-- Dictionary returned by the step hooks; the loss key is an Option because
the validation and test variants omit it. -/
structure StepOutput where
  loss : Option ℝ
  logits : List (List ℚ)
  true_preds : List ℤ

/-- Class weights torch.tensor([0.30, 1., 0.10]) baked into loss_fn. -/
noncomputable def ceWeights : List ℝ := [3 / 10, 1, 1 / 10]

/-- Weight assigned to a target class: indexing into the weight vector. -/
noncomputable def weightAt (t : ℕ) : ℝ := ceWeights.getD t 0

/-- Softmax probability of class t under the logit vector z. -/
noncomputable def softmaxProb (z : List ℝ) (t : ℕ) : ℝ :=
  Real.exp (z.getD t 0) / ((z.map Real.exp).sum)

/-- Static method loss_fn: torch.nn.CrossEntropyLoss with the fixed class
weights and the default mean reduction, meaning the weighted per-sample
negative log softmax losses are summed and divided by the sum of the weights
of the targets actually present. -/
noncomputable def loss_fn (logits : List (List ℝ)) (targets : List ℕ) : ℝ :=
  let samples := logits.zip targets
  ((samples.map (fun s => weightAt s.2 * (-(Real.log (softmaxProb s.1 s.2))))).sum)
    / ((samples.map (fun s => weightAt s.2)).sum)

/-- Method training_step: run the model on the batch and return the
dictionary with keys loss, logits and true_preds. -/
def training_step {F : Type} (model : Batch F → ModelOutput) (batch : Batch F) :
    StepOutput :=
  let output := model batch
  ⟨some output.loss, output.logits, batch.labels⟩

/-- Method validation_step: run the model and return logits and true_preds
only; the loss is logged but not part of the returned dictionary. -/
def validation_step {F : Type} (model : Batch F → ModelOutput) (batch : Batch F) :
    StepOutput :=
  let output := model batch
  ⟨none, output.logits, batch.labels⟩

/-- Method test_step: same dictionary as validation_step. -/
def test_step {F : Type} (model : Batch F → ModelOutput) (batch : Batch F) :
    StepOutput :=
  let output := model batch
  ⟨none, output.logits, batch.labels⟩

/-- Predicate is_backbone of configure_optimizers: the parameter name does
not contain the substring classifier. -/
def is_backbone (n : List Char) : Bool := ! hasSubstring ((r"classifier").toList) n

/-- Method configure_optimizers: identical grouping to the token module,
backbone group at base_lr, classifier group at linear_lr, default base_lr. -/
def configure_optimizers {P : Type} (params : List (List Char × P))
    (hparams : HParams) : Optim P :=
  ⟨[⟨(params.filter (fun np => is_backbone np.1)).map Prod.snd, hparams.base_lr⟩,
    ⟨(params.filter (fun np => ! is_backbone np.1)).map Prod.snd, hparams.linear_lr⟩],
    hparams.base_lr⟩

/-- Epoch prediction array: per step, argmax of the (batch, num_labels)
logits over the last dimension, flattened and concatenated. -/
def y_pred_of (outs : List StepOutput) : List ℤ :=
  (outs.map (fun out => out.logits.map (fun v => (torch.argmax v : ℤ)))).flatten

/-- Epoch label array: the concatenation of the flattened true labels. -/
def y_true_of (outs : List StepOutput) : List ℤ :=
  (outs.map (fun out => out.true_preds)).flatten

/-- Method training_epoch_end: mask away the positions whose true label is
-100 from both arrays, then log accuracy and weighted F1 under train_acc and
train_f1. -/
def training_epoch_end (outs : List StepOutput) : List (String × ℚ) :=
  let y_pred := y_pred_of outs
  let y_true := y_true_of outs
  let mask := numpy.neMask y_true (-100)
  let y_true2 := numpy.maskIndex mask y_true
  let y_pred2 := numpy.maskIndex mask y_pred
  let acc := sklearn.accuracy_score y_true2 y_pred2
  let f1 := sklearn.f1_score_weighted y_true2 y_pred2
  [(r"train_acc", acc), (r"train_f1", f1)]

/-- Method validation_epoch_end: the same masked computation (the filter is
applied here too, unlike the token module), preceded by a printed summary,
logged under val_acc and val_f1. -/
def validation_epoch_end (outs : List StepOutput) : List (String × ℚ) :=
  let y_pred := y_pred_of outs
  let y_true := y_true_of outs
  let mask := numpy.neMask y_true (-100)
  let y_true2 := numpy.maskIndex mask y_true
  let y_pred2 := numpy.maskIndex mask y_pred
  let acc := sklearn.accuracy_score y_true2 y_pred2
  let f1 := sklearn.f1_score_weighted y_true2 y_pred2
  [(r"val_acc", acc), (r"val_f1", f1)]

/-- Method test_epoch_end: the same masked computation, preceded by a printed
summary, logged under test_acc and test_f1. -/
def test_epoch_end (outs : List StepOutput) : List (String × ℚ) :=
  let y_pred := y_pred_of outs
  let y_true := y_true_of outs
  let mask := numpy.neMask y_true (-100)
  let y_true2 := numpy.maskIndex mask y_true
  let y_pred2 := numpy.maskIndex mask y_pred
  let acc := sklearn.accuracy_score y_true2 y_pred2
  let f1 := sklearn.f1_score_weighted y_true2 y_pred2
  [(r"test_acc", acc), (r"test_f1", f1)]

end LightningModuleForAutoModels

namespace SequenceClassicationLightningModule

/-- Module state after construction: the hyperparameter snapshot stored by
save_hyperparameters plus the wrapped model and its two parameter lists. -/
structure ModuleState (P : Type) where
  hparams : HParams
  model : torch.Tensor ℤ → torch.Tensor ℤ → torch.Tensor ℝ
  base_params : List P
  linear_params : List P

/-- Lifecycle operations the external trainer invokes on the binary module. -/
inductive Op (P : Type) where
  | train_step (batch : Batch)
  | val_step (batch : Batch)
  | train_epoch_end (outs : List StepOutput)
  | val_epoch_end (outs : List StepOutput)
  | config_optim

/-- Return value of a lifecycle operation of the binary module. -/
inductive OpResult (P : Type) where
  | stepRes (r : Except (List Char) StepOutput)
  | logRes (logs : List (String × ℚ))
  | optimRes (o : Optim P)

/-- One lifecycle call: the method's return value is computed from the state
and the state comes back as the method bodies leave it, since no attribute of
the module is assigned after construction. -/
noncomputable def applyOp {P : Type} (s : ModuleState P) :
    Op P → ModuleState P × OpResult P
  | .train_step b => (s, .stepRes (training_step s.model b))
  | .val_step b => (s, .stepRes (validation_step s.model b))
  | .train_epoch_end outs => (s, .logRes (training_epoch_end outs))
  | .val_epoch_end outs => (s, .logRes (validation_epoch_end outs))
  | .config_optim =>
      (s, .optimRes (configure_optimizers s.base_params s.linear_params s.hparams))

end SequenceClassicationLightningModule

namespace LightningModuleForTokenClassification

/-- Module state after construction: hyperparameter snapshot plus the wrapped
pretrained model and its named parameters. -/
structure ModuleState (F P : Type) where
  hparams : HParams
  model : Batch F → ModelOutput
  named_params : List (List Char × P)

/-- Lifecycle operations the external trainer invokes on the token module. -/
inductive Op (F : Type) where
  | train_step (batch : Batch F)
  | val_step (batch : Batch F)
  | tst_step (batch : Batch F)
  | train_epoch_end (outs : List StepOutput)
  | val_epoch_end (outs : List StepOutput)
  | tst_epoch_end (outs : List StepOutput)
  | config_optim

/-- Return value of a lifecycle operation of the token module. -/
inductive OpResult (P : Type) where
  | stepRes (r : StepOutput)
  | logRes (logs : List (String × ℚ))
  | optimRes (o : Optim P)

/-- One lifecycle call of the token module; the state comes back unchanged
because no method assigns an attribute after construction. -/
def applyOp {F P : Type} (s : ModuleState F P) :
    Op F → ModuleState F P × OpResult P
  | .train_step b => (s, .stepRes (training_step s.model b))
  | .val_step b => (s, .stepRes (validation_step s.model b))
  | .tst_step b => (s, .stepRes (test_step s.model b))
  | .train_epoch_end outs => (s, .logRes (training_epoch_end outs))
  | .val_epoch_end outs => (s, .logRes (validation_epoch_end outs))
  | .tst_epoch_end outs => (s, .logRes (test_epoch_end outs))
  | .config_optim => (s, .optimRes (configure_optimizers s.named_params s.hparams))

end LightningModuleForTokenClassification

namespace LightningModuleForAutoModels

/-- Module state after construction: hyperparameter snapshot plus the wrapped
pretrained model and its named parameters. -/
structure ModuleState (F P : Type) where
  hparams : HParams
  model : Batch F → ModelOutput
  named_params : List (List Char × P)

/-- Lifecycle operations the external trainer invokes on the Auto module. -/
inductive Op (F : Type) where
  | train_step (batch : Batch F)
  | val_step (batch : Batch F)
  | tst_step (batch : Batch F)
  | train_epoch_end (outs : List StepOutput)
  | val_epoch_end (outs : List StepOutput)
  | tst_epoch_end (outs : List StepOutput)
  | config_optim

/-- Return value of a lifecycle operation of the Auto module. -/
inductive OpResult (P : Type) where
  | stepRes (r : StepOutput)
  | logRes (logs : List (String × ℚ))
  | optimRes (o : Optim P)

/-- One lifecycle call of the Auto module; the state comes back unchanged
because no method assigns an attribute after construction. -/
def applyOp {F P : Type} (s : ModuleState F P) :
    Op F → ModuleState F P × OpResult P
  | .train_step b => (s, .stepRes (training_step s.model b))
  | .val_step b => (s, .stepRes (validation_step s.model b))
  | .tst_step b => (s, .stepRes (test_step s.model b))
  | .train_epoch_end outs => (s, .logRes (training_epoch_end outs))
  | .val_epoch_end outs => (s, .logRes (validation_epoch_end outs))
  | .tst_epoch_end outs => (s, .logRes (test_epoch_end outs))
  | .config_optim => (s, .optimRes (configure_optimizers s.named_params s.hparams))

end LightningModuleForAutoModels

/-- Specification-side description of the sentinel filter: drop every
(true label, prediction) pair whose true label is the sentinel -100, keeping
the remaining pairs in order. -/
def sentinelFilteredPairs (y_true y_pred : List ℤ) : List (ℤ × ℤ) :=
  (y_true.zip y_pred).filter (fun p => decide (p.1 ≠ -100))

/-- Accuracy over the sentinel-filtered arrays, as the specification words
the train-path metric. -/
def filteredAccuracy (y_true y_pred : List ℤ) : ℚ :=
  sklearn.accuracy_score ((sentinelFilteredPairs y_true y_pred).map Prod.fst)
    ((sentinelFilteredPairs y_true y_pred).map Prod.snd)

/-- Weighted F1 over the sentinel-filtered arrays, as the specification words
the train-path metric. -/
def filteredWeightedF1 (y_true y_pred : List ℤ) : ℚ :=
  sklearn.f1_score_weighted ((sentinelFilteredPairs y_true y_pred).map Prod.fst)
    ((sentinelFilteredPairs y_true y_pred).map Prod.snd)

/-- Specification-side binary epoch pipeline, prediction part: concatenate
the buffered logits, apply sigmoid, threshold at 0.5. -/
noncomputable def binaryEpochPreds
    (outs : List SequenceClassicationLightningModule.StepOutput) : List Bool :=
  (torch.cat (outs.map SequenceClassicationLightningModule.StepOutput.logits)).map
    torch.sigmoidGeHalf

/-- Specification-side binary epoch pipeline, target part: concatenate the
buffered true targets cast to integer. -/
noncomputable def binaryEpochTargets
    (outs : List SequenceClassicationLightningModule.StepOutput) : List ℤ :=
  (torch.cat (outs.map SequenceClassicationLightningModule.StepOutput.true_preds)).map
    ratToInt

/-- Specification-side binary epoch accuracy of the thresholded predictions
against the integer targets. -/
noncomputable def binaryEpochAccuracy
    (outs : List SequenceClassicationLightningModule.StepOutput) : ℚ :=
  sklearn.accuracy_score ((binaryEpochPreds outs).map boolToInt)
    (binaryEpochTargets outs)

/-- Specification-side binary epoch F1 (binary, unweighted) of the
thresholded predictions against the integer targets. -/
noncomputable def binaryEpochF1
    (outs : List SequenceClassicationLightningModule.StepOutput) : ℚ :=
  sklearn.f1_score ((binaryEpochPreds outs).map boolToInt) (binaryEpochTargets outs)

/-- Scenario input for the token epoch hooks: one batch of one sequence whose
per-token argmax predictions are [1, 0, 1] and whose true labels are
[1, -100, 0]. -/
def c1Scenario : LightningModuleForTokenClassification.StepOutput :=
  ⟨none, [[[0, 1], [1, 0], [0, 1]]], [[1, -100, 0]]⟩

/-- Scenario input for the binary epoch hooks: one batch of two samples with
logits [2.0, -2.0] and targets [1, 0]. -/
noncomputable def c2Scenario : SequenceClassicationLightningModule.StepOutput :=
  ⟨none, ⟨[2], [2, -2]⟩, ⟨[2], [1, 0]⟩⟩

/-- Concrete named-parameter list with one backbone and one classifier
parameter. -/
def c3Params : List (List Char × ℕ) :=
  [((r"bert.embeddings.word").toList, 0), ((r"classifier.weight").toList, 1)]

/-- Concrete hyperparameter snapshot. -/
def c3HP : HParams := ⟨[], 1 / 100000, 1 / 1000, 3⟩

/-- Logit vector of the correctly predicted class-2 sample: the logs of the
probability vector (0.3, 0.3, 0.4), so the true class 2 has probability 0.4
and is the argmax. -/
noncomputable def c4LogitsA : List ℝ :=
  [Real.log (3 / 10), Real.log (3 / 10), Real.log (4 / 10)]

/-- Logit vector of the incorrectly predicted class-1 sample: the logs of the
probability vector (0.5, 0.4, 0.1), so the true class 1 has probability 0.4
while class 0 is the argmax. -/
noncomputable def c4LogitsB : List ℝ :=
  [Real.log (5 / 10), Real.log (4 / 10), Real.log (1 / 10)]

/-- Scenario input for the Auto epoch hooks: one batch of two samples with
argmax predictions [1, 0] and true labels [1, -100]. -/
def c6Scenario : LightningModuleForAutoModels.StepOutput :=
  ⟨none, [[0, 1, 0], [1, 0, 0]], [1, -100]⟩

/-- Concrete token batch with a single token. -/
def c7Batch : LightningModuleForTokenClassification.Batch Unit := ⟨(), [[0]]⟩

/-- Concrete token model mapping every batch to loss 0 and one logit row. -/
noncomputable def c7Model :
    LightningModuleForTokenClassification.Batch Unit →
      LightningModuleForTokenClassification.ModelOutput :=
  fun _ => ⟨0, [[[1, 0]]]⟩

/-- Concrete binary model producing a logit tensor of shape (2, 1). -/
noncomputable def c7BinModel : torch.Tensor ℤ → torch.Tensor ℤ → torch.Tensor ℝ :=
  fun _ _ => ⟨[2, 1], [0, 0]⟩

/-- Concrete binary batch of two samples with targets of shape (2,). -/
def c7BinBatch : SequenceClassicationLightningModule.Batch :=
  ⟨⟨[2, 1], [5, 5]⟩, ⟨[2, 1], [1, 1]⟩, ⟨[2], [0, 0]⟩⟩

/-- Concrete encoder whose pooled output has one row. -/
noncomputable def c8Base : List (List ℤ) → List (List ℤ) → MainModel.BaseOut :=
  fun _ _ => ([], [[0]])

/-- Concrete dropout mask matching the pooled output of c8Base. -/
noncomputable def c8Mask : List (List ℝ) := [[1]]

/-- Concrete binary model producing a logit tensor of shape (1, 1). -/
noncomputable def c10Model1 : torch.Tensor ℤ → torch.Tensor ℤ → torch.Tensor ℝ :=
  fun _ _ => ⟨[1, 1], [0]⟩

/-- Concrete binary batch of a single sample with target shape (1,). -/
def c10Batch1 : SequenceClassicationLightningModule.Batch :=
  ⟨⟨[1, 1], [5]⟩, ⟨[1, 1], [1]⟩, ⟨[1], [0]⟩⟩

/-- Concrete binary model producing a logit tensor of shape (2, 1). -/
noncomputable def c10Model2 : torch.Tensor ℤ → torch.Tensor ℤ → torch.Tensor ℝ :=
  fun _ _ => ⟨[2, 1], [0, 0]⟩

/-- Concrete binary batch of two samples with target shape (2,). -/
def c10Batch2 : SequenceClassicationLightningModule.Batch :=
  ⟨⟨[2, 1], [5, 5]⟩, ⟨[2, 1], [1, 1]⟩, ⟨[2], [0, 0]⟩⟩

theorem sigmoid_ge_half_iff (x : ℝ) : 1 / 2 ≤ torch.sigmoid x ↔ 0 ≤ x := by
  unfold torch.sigmoid
  have h1 : 0 < 1 + Real.exp (-x) := by positivity
  rw [le_div_iff₀ h1]
  constructor
  · intro h
    have h3 : Real.exp (-x) ≤ Real.exp 0 := by rw [Real.exp_zero]; linarith
    have h4 : -x ≤ 0 := Real.exp_le_exp.mp h3
    linarith
  · intro h
    have h3 : Real.exp (-x) ≤ Real.exp 0 := Real.exp_le_exp.mpr (by linarith)
    rw [Real.exp_zero] at h3
    linarith

theorem sigmoidGeHalf_true {x : ℝ} (h : 0 ≤ x) : torch.sigmoidGeHalf x = true := by
  simp only [torch.sigmoidGeHalf, decide_eq_true_eq]
  exact (sigmoid_ge_half_iff x).mpr h

theorem sigmoidGeHalf_false {x : ℝ} (h : x < 0) : torch.sigmoidGeHalf x = false := by
  simp only [torch.sigmoidGeHalf, decide_eq_false_iff_not]
  intro hc
  exact absurd ((sigmoid_ge_half_iff x).mp hc) (by linarith)

theorem maskIndex_neMask_zip (c : ℤ) :
    ∀ (t p : List ℤ), t.length = p.length →
      numpy.maskIndex (numpy.neMask t c) t
          = ((t.zip p).filter (fun q => decide (q.1 ≠ c))).map Prod.fst
        ∧ numpy.maskIndex (numpy.neMask t c) p
          = ((t.zip p).filter (fun q => decide (q.1 ≠ c))).map Prod.snd
  | [], [], _ => ⟨rfl, rfl⟩
  | a :: t, b :: p, h => by
      have ih := maskIndex_neMask_zip c t p (by simpa using h)
      by_cases hac : a = c
      · simp [numpy.maskIndex, numpy.neMask, hac, List.filter_cons] at ih ⊢
        exact ⟨ih.1, ih.2⟩
      · simp [numpy.maskIndex, numpy.neMask, hac, List.filter_cons] at ih ⊢
        exact ⟨ih.1, ih.2⟩

theorem foldl_append_singleton {β γ : Type} (f : β → γ) :
    ∀ (l : List β) (acc : List γ),
      l.foldl (fun a b => a ++ [f b]) acc = acc ++ l.map f
  | [], _ => by simp
  | b :: l, acc => by
      simp only [List.foldl_cons, List.map_cons]
      rw [foldl_append_singleton f l (acc ++ [f b])]
      simp

theorem runEpoch_eq_map {β γ : Type} (f : β → γ) (l : List β) :
    runEpoch f l = l.map f := by
  unfold runEpoch
  simpa using foldl_append_singleton f l []

theorem mem_filter_map_snd_iff {P : Type} (pred : List Char × P → Bool)
    (params : List (List Char × P)) (hnd : (params.map Prod.snd).Nodup)
    (np : List Char × P) (hmem : np ∈ params) :
    np.2 ∈ (params.filter pred).map Prod.snd ↔ pred np = true := by
  constructor
  · intro h
    obtain ⟨x, hx, hxnp⟩ := List.mem_map.mp h
    have hxp : x ∈ params := List.mem_of_mem_filter hx
    have hxe : x = np := List.inj_on_of_nodup_map hnd hxp hmem hxnp
    rw [← hxe]
    exact List.of_mem_filter hx
  · intro h
    exact List.mem_map.mpr ⟨np, List.mem_filter.mpr ⟨hmem, h⟩, rfl⟩

theorem sigmoidGeHalf_two : torch.sigmoidGeHalf 2 = true :=
  sigmoidGeHalf_true (by norm_num)

theorem sigmoidGeHalf_neg_two : torch.sigmoidGeHalf (-2) = false :=
  sigmoidGeHalf_false (by norm_num)

theorem c4_probA : LightningModuleForAutoModels.softmaxProb c4LogitsA 2 = 2 / 5 := by
  unfold LightningModuleForAutoModels.softmaxProb c4LogitsA
  simp only [List.getD, List.get?, List.map_cons, List.map_nil, List.sum_cons,
    List.sum_nil, Option.getD_some]
  rw [Real.exp_log (by norm_num), Real.exp_log (by norm_num)]
  norm_num

theorem c4_probB : LightningModuleForAutoModels.softmaxProb c4LogitsB 1 = 2 / 5 := by
  unfold LightningModuleForAutoModels.softmaxProb c4LogitsB
  simp only [List.getD, List.get?, List.map_cons, List.map_nil, List.sum_cons,
    List.sum_nil, Option.getD_some]
  rw [Real.exp_log (by norm_num), Real.exp_log (by norm_num), Real.exp_log (by norm_num)]
  norm_num

theorem c4_lossA :
    LightningModuleForAutoModels.loss_fn [c4LogitsA] [2] = -Real.log (2 / 5) := by
  unfold LightningModuleForAutoModels.loss_fn
  simp only [List.zip, List.zipWith, List.map_cons, List.map_nil, List.sum_cons,
    List.sum_nil, add_zero]
  rw [c4_probA]
  have hw : LightningModuleForAutoModels.weightAt 2 = 1 / 10 := by
    unfold LightningModuleForAutoModels.weightAt LightningModuleForAutoModels.ceWeights
    rfl
  rw [hw]
  rw [mul_div_cancel_left₀ _ (by norm_num : (1 / 10 : ℝ) ≠ 0)]

theorem c4_lossB :
    LightningModuleForAutoModels.loss_fn [c4LogitsB] [1] = -Real.log (2 / 5) := by
  unfold LightningModuleForAutoModels.loss_fn
  simp only [List.zip, List.zipWith, List.map_cons, List.map_nil, List.sum_cons,
    List.sum_nil, add_zero]
  rw [c4_probB]
  have hw : LightningModuleForAutoModels.weightAt 1 = 1 := by
    unfold LightningModuleForAutoModels.weightAt LightningModuleForAutoModels.ceWeights
    rfl
  rw [hw]
  rw [mul_div_cancel_left₀ _ (by norm_num : (1 : ℝ) ≠ 0)]

/-- C2: for every epoch, the binary epoch hooks concatenate the buffered
logits in order, apply sigmoid, threshold at 0.5, concatenate the true
targets cast to integer, compute accuracy and binary unweighted F1 of those
predictions against those targets, and log them under train_acc/train_f1
(train variant) or val_acc/val_f1 (validation variant); for an epoch of one
batch with logits [2.0, -2.0] and targets [1, 0], both logged values are 1. -/
theorem C2_binary_epoch_end_metrics :
    (∀ outs, SequenceClassicationLightningModule.training_epoch_end outs
        = [(r"train_acc", binaryEpochAccuracy outs), (r"train_f1", binaryEpochF1 outs)])
    ∧ (∀ outs, SequenceClassicationLightningModule.validation_epoch_end outs
        = [(r"val_acc", binaryEpochAccuracy outs), (r"val_f1", binaryEpochF1 outs)])
    ∧ SequenceClassicationLightningModule.training_epoch_end [c2Scenario]
        = [(r"train_acc", 1), (r"train_f1", 1)]
    ∧ SequenceClassicationLightningModule.validation_epoch_end [c2Scenario]
        = [(r"val_acc", 1), (r"val_f1", 1)] := by
  have hc : binaryEpochPreds [c2Scenario] = [true, false] := by
    show ([(2 : ℝ), -2]).map torch.sigmoidGeHalf = [true, false]
    simp [sigmoidGeHalf_two, sigmoidGeHalf_neg_two]
  have hpred : (binaryEpochPreds [c2Scenario]).map boolToInt = [1, 0] := by
    rw [hc]; rfl
  have htar : binaryEpochTargets [c2Scenario] = [1, 0] := rfl
  have hacc : binaryEpochAccuracy [c2Scenario] = 1 := by
    unfold binaryEpochAccuracy
    rw [hpred, htar]
    norm_num [sklearn.accuracy_score, List.filter]
  have hf1 : binaryEpochF1 [c2Scenario] = 1 := by
    unfold binaryEpochF1
    rw [hpred, htar]
    norm_num [sklearn.f1_score, sklearn.f1_class, List.filter]
  refine ⟨fun outs => rfl, fun outs => rfl, ?_, ?_⟩
  · show [(r"train_acc", binaryEpochAccuracy [c2Scenario]),
        (r"train_f1", binaryEpochF1 [c2Scenario])] = _
    rw [hacc, hf1]
  · show [(r"val_acc", binaryEpochAccuracy [c2Scenario]),
        (r"val_f1", binaryEpochF1 [c2Scenario])] = _
    rw [hacc, hf1]

/-- C5: for every list of per-batch logit tensors, thresholding sigmoid at
0.5 commutes with concatenation: mapping the threshold over the concatenated
logits equals concatenating the per-batch thresholded arrays. -/
theorem C5_threshold_commutes_with_cat (ts : List (torch.Tensor ℝ)) :
    (torch.cat ts).map torch.sigmoidGeHalf
      = (ts.map (fun t => t.data.map torch.sigmoidGeHalf)).flatten := by
  unfold torch.cat
  rw [List.map_flatten, List.map_map]
  rfl

open LightningModuleForTokenClassification in
theorem c1_train_log :
    training_epoch_end [c1Scenario] = [(r"train_acc", 1 / 2), (r"train_f1", 1 / 3)] := by
  have e1 : numpy.maskIndex (numpy.neMask (y_true_of [c1Scenario]) (-100))
      (y_true_of [c1Scenario]) = [1, 0] := rfl
  have e2 : numpy.maskIndex (numpy.neMask (y_true_of [c1Scenario]) (-100))
      (y_pred_of [c1Scenario]) = [1, 1] := rfl
  show [(r"train_acc", sklearn.accuracy_score
      (numpy.maskIndex (numpy.neMask (y_true_of [c1Scenario]) (-100)) (y_true_of [c1Scenario]))
      (numpy.maskIndex (numpy.neMask (y_true_of [c1Scenario]) (-100)) (y_pred_of [c1Scenario]))),
    (r"train_f1", sklearn.f1_score_weighted
      (numpy.maskIndex (numpy.neMask (y_true_of [c1Scenario]) (-100)) (y_true_of [c1Scenario]))
      (numpy.maskIndex (numpy.neMask (y_true_of [c1Scenario]) (-100)) (y_pred_of [c1Scenario])))]
    = _
  rw [e1, e2]
  norm_num [sklearn.accuracy_score, sklearn.f1_score_weighted, sklearn.f1_class,
    sklearn.support, List.dedup, List.filter]

open LightningModuleForTokenClassification in
theorem c1_val_log :
    validation_epoch_end [c1Scenario] = [(r"val_acc", 1 / 3), (r"val_f1", 2 / 9)] := by
  have hp : y_pred_of [c1Scenario] = [1, 0, 1] := rfl
  have ht : y_true_of [c1Scenario] = [1, -100, 0] := rfl
  show [(r"val_acc", sklearn.accuracy_score (y_true_of [c1Scenario]) (y_pred_of [c1Scenario])),
    (r"val_f1", sklearn.f1_score_weighted (y_true_of [c1Scenario]) (y_pred_of [c1Scenario]))]
    = _
  rw [hp, ht]
  norm_num [sklearn.accuracy_score, sklearn.f1_score_weighted, sklearn.f1_class,
    sklearn.support, List.dedup, List.filter]

open LightningModuleForTokenClassification in
/-- C1 (amended): the token-classification train-path epoch hook removes
every position whose true label is the sentinel -100 from both the
prediction and the target arrays before computing accuracy and weighted F1,
while the validation and test epoch hooks compute the same metrics over the
unfiltered arrays; however, on the stated scenario (true labels
[[1, -100, 0]], per-token argmax predictions [[1, 0, 1]]) the train-path
accuracy equals 1/2 (not 1.0 as the claim states) and the validation-path
accuracy equals 1/3 (not 2/3). -/
theorem C1_token_epoch_end_mask_asymmetry (outs : List StepOutput)
    (h : (y_true_of outs).length = (y_pred_of outs).length) :
    training_epoch_end outs
        = [(r"train_acc", filteredAccuracy (y_true_of outs) (y_pred_of outs)),
           (r"train_f1", filteredWeightedF1 (y_true_of outs) (y_pred_of outs))]
    ∧ validation_epoch_end outs
        = [(r"val_acc", sklearn.accuracy_score (y_true_of outs) (y_pred_of outs)),
           (r"val_f1", sklearn.f1_score_weighted (y_true_of outs) (y_pred_of outs))]
    ∧ test_epoch_end outs
        = [(r"test_acc", sklearn.accuracy_score (y_true_of outs) (y_pred_of outs)),
           (r"test_f1", sklearn.f1_score_weighted (y_true_of outs) (y_pred_of outs))]
    ∧ training_epoch_end [c1Scenario] = [(r"train_acc", 1 / 2), (r"train_f1", 1 / 3)]
    ∧ validation_epoch_end [c1Scenario] = [(r"val_acc", 1 / 3), (r"val_f1", 2 / 9)] := by
  obtain ⟨h1, h2⟩ := maskIndex_neMask_zip (-100) (y_true_of outs) (y_pred_of outs) h
  refine ⟨?_, rfl, rfl, c1_train_log, c1_val_log⟩
  show [(r"train_acc", sklearn.accuracy_score
      (numpy.maskIndex (numpy.neMask (y_true_of outs) (-100)) (y_true_of outs))
      (numpy.maskIndex (numpy.neMask (y_true_of outs) (-100)) (y_pred_of outs))),
    (r"train_f1", sklearn.f1_score_weighted
      (numpy.maskIndex (numpy.neMask (y_true_of outs) (-100)) (y_true_of outs))
      (numpy.maskIndex (numpy.neMask (y_true_of outs) (-100)) (y_pred_of outs)))]
    = _
  rw [h1, h2]
  rfl

/-- C1 counterexample: at the claim's own scenario input the code logs a
train-path accuracy of 1/2, not the claimed 1.0, and a validation-path
accuracy of 1/3, not the claimed 2/3. -/
theorem C1_scenario_counterexample :
    LightningModuleForTokenClassification.training_epoch_end [c1Scenario]
        = [(r"train_acc", 1 / 2), (r"train_f1", 1 / 3)]
    ∧ (1 / 2 : ℚ) ≠ 1
    ∧ LightningModuleForTokenClassification.validation_epoch_end [c1Scenario]
        = [(r"val_acc", 1 / 3), (r"val_f1", 2 / 9)]
    ∧ (1 / 3 : ℚ) ≠ 2 / 3 :=
  ⟨c1_train_log, by norm_num, c1_val_log, by norm_num⟩

open LightningModuleForTokenClassification in
theorem C1_token_epoch_end_mask_asymmetry_witness :
    (y_true_of [c1Scenario]).length = (y_pred_of [c1Scenario]).length
    ∧ validation_epoch_end [c1Scenario]
        = [(r"val_acc", sklearn.accuracy_score (y_true_of [c1Scenario]) (y_pred_of [c1Scenario])),
           (r"val_f1", sklearn.f1_score_weighted (y_true_of [c1Scenario]) (y_pred_of [c1Scenario]))] :=
  ⟨rfl, (C1_token_epoch_end_mask_asymmetry [c1Scenario] rfl).2.1⟩

open LightningModuleForAutoModels in
/-- C6: all three epoch hooks of the Auto sequence-classification module
remove the positions whose true label equals the sentinel -100 from both the
prediction and the target arrays before computing accuracy and weighted F1,
and the filtering is applied identically in the train, validation and test
variants. -/
theorem C6_auto_epoch_end_filtering (outs : List StepOutput)
    (h : (y_true_of outs).length = (y_pred_of outs).length) :
    training_epoch_end outs
        = [(r"train_acc", filteredAccuracy (y_true_of outs) (y_pred_of outs)),
           (r"train_f1", filteredWeightedF1 (y_true_of outs) (y_pred_of outs))]
    ∧ validation_epoch_end outs
        = [(r"val_acc", filteredAccuracy (y_true_of outs) (y_pred_of outs)),
           (r"val_f1", filteredWeightedF1 (y_true_of outs) (y_pred_of outs))]
    ∧ test_epoch_end outs
        = [(r"test_acc", filteredAccuracy (y_true_of outs) (y_pred_of outs)),
           (r"test_f1", filteredWeightedF1 (y_true_of outs) (y_pred_of outs))]
    ∧ (training_epoch_end outs).map Prod.snd = (validation_epoch_end outs).map Prod.snd
    ∧ (validation_epoch_end outs).map Prod.snd = (test_epoch_end outs).map Prod.snd := by
  obtain ⟨h1, h2⟩ := maskIndex_neMask_zip (-100) (y_true_of outs) (y_pred_of outs) h
  refine ⟨?_, ?_, ?_, rfl, rfl⟩
  · show [(r"train_acc", sklearn.accuracy_score
        (numpy.maskIndex (numpy.neMask (y_true_of outs) (-100)) (y_true_of outs))
        (numpy.maskIndex (numpy.neMask (y_true_of outs) (-100)) (y_pred_of outs))),
      (r"train_f1", sklearn.f1_score_weighted
        (numpy.maskIndex (numpy.neMask (y_true_of outs) (-100)) (y_true_of outs))
        (numpy.maskIndex (numpy.neMask (y_true_of outs) (-100)) (y_pred_of outs)))]
      = _
    rw [h1, h2]
    rfl
  · show [(r"val_acc", sklearn.accuracy_score
        (numpy.maskIndex (numpy.neMask (y_true_of outs) (-100)) (y_true_of outs))
        (numpy.maskIndex (numpy.neMask (y_true_of outs) (-100)) (y_pred_of outs))),
      (r"val_f1", sklearn.f1_score_weighted
        (numpy.maskIndex (numpy.neMask (y_true_of outs) (-100)) (y_true_of outs))
        (numpy.maskIndex (numpy.neMask (y_true_of outs) (-100)) (y_pred_of outs)))]
      = _
    rw [h1, h2]
    rfl
  · show [(r"test_acc", sklearn.accuracy_score
        (numpy.maskIndex (numpy.neMask (y_true_of outs) (-100)) (y_true_of outs))
        (numpy.maskIndex (numpy.neMask (y_true_of outs) (-100)) (y_pred_of outs))),
      (r"test_f1", sklearn.f1_score_weighted
        (numpy.maskIndex (numpy.neMask (y_true_of outs) (-100)) (y_true_of outs))
        (numpy.maskIndex (numpy.neMask (y_true_of outs) (-100)) (y_pred_of outs)))]
      = _
    rw [h1, h2]
    rfl

open LightningModuleForAutoModels in
theorem C6_auto_epoch_end_filtering_witness :
    (y_true_of [c6Scenario]).length = (y_pred_of [c6Scenario]).length
    ∧ training_epoch_end [c6Scenario]
        = [(r"train_acc", filteredAccuracy (y_true_of [c6Scenario]) (y_pred_of [c6Scenario])),
           (r"train_f1", filteredWeightedF1 (y_true_of [c6Scenario]) (y_pred_of [c6Scenario]))] :=
  ⟨rfl, (C6_auto_epoch_end_filtering [c6Scenario] rfl).1⟩

open LightningModuleForTokenClassification in
/-- C3: configure_optimizers of the token-classification and Auto modules
produces a strict bipartition of the named parameters into two groups:
every named parameter appears in exactly one group, a parameter lies in the
classifier group exactly when its name contains the substring classifier,
the backbone group gets base_lr, the classifier group gets linear_lr, and
the optimizer default lr equals base_lr. -/
theorem C3_configure_optimizers_bipartition {P : Type}
    (params : List (List Char × P)) (hparams : HParams)
    (hnd : (params.map Prod.snd).Nodup) :
    (configure_optimizers params hparams).param_groups.length = 2
    ∧ (∀ np ∈ params,
        (np.2 ∈ ((configure_optimizers params hparams).param_groups.getD 0 ⟨[], 0⟩).params
            ↔ hasSubstring ((r"classifier").toList) np.1 = false)
        ∧ (np.2 ∈ ((configure_optimizers params hparams).param_groups.getD 1 ⟨[], 0⟩).params
            ↔ hasSubstring ((r"classifier").toList) np.1 = true))
    ∧ (((configure_optimizers params hparams).param_groups.getD 0 ⟨[], 0⟩).params
        ++ ((configure_optimizers params hparams).param_groups.getD 1 ⟨[], 0⟩).params).Perm
        (params.map Prod.snd)
    ∧ ((configure_optimizers params hparams).param_groups.getD 0 ⟨[], 0⟩).lr = hparams.base_lr
    ∧ ((configure_optimizers params hparams).param_groups.getD 1 ⟨[], 0⟩).lr = hparams.linear_lr
    ∧ (configure_optimizers params hparams).defaults_lr = hparams.base_lr
    ∧ LightningModuleForAutoModels.configure_optimizers params hparams
        = configure_optimizers params hparams := by
  have g0 : ((configure_optimizers params hparams).param_groups.getD 0 ⟨[], 0⟩).params
      = (params.filter (fun q => is_backbone q.1)).map Prod.snd := rfl
  have g1 : ((configure_optimizers params hparams).param_groups.getD 1 ⟨[], 0⟩).params
      = (params.filter (fun q => ! is_backbone q.1)).map Prod.snd := rfl
  refine ⟨rfl, ?_, ?_, rfl, rfl, rfl, rfl⟩
  · intro np hmem
    constructor
    · rw [g0, mem_filter_map_snd_iff (fun q => is_backbone q.1) params hnd np hmem]
      simp [is_backbone]
    · rw [g1, mem_filter_map_snd_iff (fun q => ! is_backbone q.1) params hnd np hmem]
      simp [is_backbone]
  · rw [g0, g1]
    have hperm := (List.filter_append_perm (fun q => is_backbone q.1) params).map Prod.snd
    rw [List.map_append] at hperm
    exact hperm

theorem C3_configure_optimizers_bipartition_witness :
    (c3Params.map Prod.snd).Nodup
    ∧ (LightningModuleForTokenClassification.configure_optimizers c3Params c3HP).param_groups.length = 2
    ∧ ((LightningModuleForTokenClassification.configure_optimizers c3Params c3HP).param_groups.getD 0
        ⟨[], 0⟩).lr = c3HP.base_lr :=
  ⟨by decide,
    (C3_configure_optimizers_bipartition c3Params c3HP (by decide)).1,
    (C3_configure_optimizers_bipartition c3Params c3HP (by decide)).2.2.2.1⟩

open LightningModuleForAutoModels in
/-- C4 counterexample: two concrete single samples, a class-2 sample
predicted correctly and a class-1 sample predicted incorrectly, both
assigning probability 2/5 to their true class, receive exactly equal losses
from loss_fn, so the correct class-2 sample's loss is not strictly lower as
the claim states. -/
theorem C4_loss_fn_counterexample :
    softmaxProb c4LogitsA 2 = 2 / 5
    ∧ softmaxProb c4LogitsB 1 = 2 / 5
    ∧ c4LogitsA.getD 0 0 < c4LogitsA.getD 2 0
    ∧ c4LogitsA.getD 1 0 < c4LogitsA.getD 2 0
    ∧ c4LogitsB.getD 1 0 < c4LogitsB.getD 0 0
    ∧ loss_fn [c4LogitsA] [2] = loss_fn [c4LogitsB] [1]
    ∧ ¬ loss_fn [c4LogitsA] [2] < loss_fn [c4LogitsB] [1] := by
  refine ⟨c4_probA, c4_probB, ?_, ?_, ?_, ?_, ?_⟩
  · show Real.log (3 / 10) < Real.log (4 / 10)
    exact Real.log_lt_log (by norm_num) (by norm_num)
  · show Real.log (3 / 10) < Real.log (4 / 10)
    exact Real.log_lt_log (by norm_num) (by norm_num)
  · show Real.log (4 / 10) < Real.log (5 / 10)
    exact Real.log_lt_log (by norm_num) (by norm_num)
  · rw [c4_lossA, c4_lossB]
  · rw [c4_lossA, c4_lossB]
    exact lt_irrefl _

open LightningModuleForAutoModels in
/-- C4 (amended): because the default mean reduction of CrossEntropyLoss
divides by the sum of the weights of the targets, the class weight cancels
for a single-sample batch: any two single samples whose true classes carry a
nonzero weight and that assign equal probability to their true class incur
exactly equal loss, so the correctly predicted class-2 sample and the
equally confident incorrect class-1 sample have equal, not strictly ordered,
losses. -/
theorem C4_loss_fn_single_sample_weight_cancels
    (z z2 : List ℝ) (t t2 : ℕ)
    (hw : weightAt t ≠ 0) (hw2 : weightAt t2 ≠ 0)
    (hp : softmaxProb z t = softmaxProb z2 t2) :
    loss_fn [z] [t] = loss_fn [z2] [t2] := by
  unfold loss_fn
  simp only [List.zip, List.zipWith, List.map_cons, List.map_nil, List.sum_cons,
    List.sum_nil, add_zero]
  rw [hp, mul_div_cancel_left₀ _ hw, mul_div_cancel_left₀ _ hw2]

open LightningModuleForAutoModels in
theorem C4_loss_fn_single_sample_weight_cancels_witness :
    weightAt 2 ≠ 0 ∧ weightAt 1 ≠ 0
    ∧ softmaxProb c4LogitsA 2 = softmaxProb c4LogitsB 1
    ∧ loss_fn [c4LogitsA] [2] = loss_fn [c4LogitsB] [1] := by
  have e2 : weightAt 2 = 1 / 10 := by unfold weightAt ceWeights; rfl
  have e1 : weightAt 1 = 1 := by unfold weightAt ceWeights; rfl
  have hw : weightAt 2 ≠ 0 := by rw [e2]; norm_num
  have hw2 : weightAt 1 ≠ 0 := by rw [e1]; norm_num
  have hp : softmaxProb c4LogitsA 2 = softmaxProb c4LogitsB 1 := by
    rw [c4_probA, c4_probB]
  exact ⟨hw, hw2, hp,
    C4_loss_fn_single_sample_weight_cancels c4LogitsA c4LogitsB 2 1 hw hw2 hp⟩

/-- C7 counterexample: the token-module validation step at a concrete batch
returns a dictionary whose loss entry is absent, contradicting the claim
that every step variant returns all three of loss, logits and true_preds. -/
theorem C7_validation_step_no_loss :
    (LightningModuleForTokenClassification.validation_step c7Model c7Batch).loss = none := rfl

/-- C7 (amended): every step hook returns a dictionary containing logits and
true_preds; the training variants additionally contain the loss while the
validation and test variants omit it; the epoch buffer accumulates exactly
one entry per batch in batch arrival order. -/
theorem C7_step_output_fields :
    (∀ {F : Type} (model : LightningModuleForTokenClassification.Batch F →
          LightningModuleForTokenClassification.ModelOutput)
        (batch : LightningModuleForTokenClassification.Batch F),
      LightningModuleForTokenClassification.training_step model batch
          = ⟨some (model batch).loss, (model batch).logits, batch.labels⟩
      ∧ LightningModuleForTokenClassification.validation_step model batch
          = ⟨none, (model batch).logits, batch.labels⟩
      ∧ LightningModuleForTokenClassification.test_step model batch
          = ⟨none, (model batch).logits, batch.labels⟩)
    ∧ (∀ {F : Type} (model : LightningModuleForAutoModels.Batch F →
          LightningModuleForAutoModels.ModelOutput)
        (batch : LightningModuleForAutoModels.Batch F),
      LightningModuleForAutoModels.training_step model batch
          = ⟨some (model batch).loss, (model batch).logits, batch.labels⟩
      ∧ LightningModuleForAutoModels.validation_step model batch
          = ⟨none, (model batch).logits, batch.labels⟩
      ∧ LightningModuleForAutoModels.test_step model batch
          = ⟨none, (model batch).logits, batch.labels⟩)
    ∧ (∀ (model : torch.Tensor ℤ → torch.Tensor ℤ → torch.Tensor ℝ)
        (batch : SequenceClassicationLightningModule.Batch)
        (lg : torch.Tensor ℝ) (l : ℝ),
      SequenceClassicationLightningModule.shared_step model batch = Except.ok (lg, l) →
        SequenceClassicationLightningModule.training_step model batch
            = Except.ok ⟨some l, lg, batch.target⟩
        ∧ SequenceClassicationLightningModule.validation_step model batch
            = Except.ok ⟨none, lg, batch.target⟩)
    ∧ (∀ {β γ : Type} (step : β → γ) (batches : List β),
        runEpoch step batches = batches.map step) := by
  refine ⟨fun model batch => ⟨rfl, rfl, rfl⟩, fun model batch => ⟨rfl, rfl, rfl⟩,
    ?_, fun step batches => runEpoch_eq_map step batches⟩
  intro model batch lg l h
  constructor
  · simp [SequenceClassicationLightningModule.training_step, h]
  · simp [SequenceClassicationLightningModule.validation_step, h]

theorem C7_step_output_fields_witness :
    SequenceClassicationLightningModule.shared_step c7BinModel c7BinBatch
        = Except.ok (⟨[2], [0, 0]⟩, torch.bceWithLogitsValue [0, 0] [0, 0])
    ∧ SequenceClassicationLightningModule.training_step c7BinModel c7BinBatch
        = Except.ok ⟨some (torch.bceWithLogitsValue [0, 0] [0, 0]), ⟨[2], [0, 0]⟩,
            c7BinBatch.target⟩ :=
  ⟨rfl, (C7_step_output_fields.2.2.1 c7BinModel c7BinBatch ⟨[2], [0, 0]⟩
      (torch.bceWithLogitsValue [0, 0] [0, 0]) rfl).1⟩

/-- C8: MainModel.forward runs the encoder, takes the second (pooled)
element of its output, applies dropout at the constructor rate 0.3 only in
training mode, applies the nn.Linear(768, 1) head with no activation, and
returns for a batch of n samples a raw logit matrix of shape (n, 1). -/
theorem C8_mainmodel_forward
    (base : List (List ℤ) → List (List ℤ) → MainModel.BaseOut)
    (w : List ℝ) (b : ℝ) (mask : List (List ℝ)) (ids attn : List (List ℤ))
    (training : Bool)
    (hmask : mask.length = ((base ids attn).2).length) :
    (MainModel.init base w b).dropout_p = 3 / 10
    ∧ (MainModel.init base w b).linear.in_features = 768
    ∧ MainModel.forward (MainModel.init base w b) false mask ids attn
        = ((base ids attn).2).map (MainModel.linearRow ⟨768, w, b⟩)
    ∧ MainModel.forward (MainModel.init base w b) true mask ids attn
        = (MainModel.dropoutMat (3 / 10) true mask ((base ids attn).2)).map
            (MainModel.linearRow ⟨768, w, b⟩)
    ∧ (MainModel.forward (MainModel.init base w b) training mask ids attn).length
        = ((base ids attn).2).length
    ∧ ∀ row ∈ MainModel.forward (MainModel.init base w b) training mask ids attn,
        row.length = 1 := by
  refine ⟨rfl, rfl, rfl, rfl, ?_, ?_⟩
  · cases training
    · simp [MainModel.forward, MainModel.init, MainModel.dropoutMat]
    · simp [MainModel.forward, MainModel.init, MainModel.dropoutMat, hmask]
  · intro row hrow
    simp only [MainModel.forward, List.mem_map] at hrow
    obtain ⟨x, _, hx⟩ := hrow
    rw [← hx]
    rfl

theorem C8_mainmodel_forward_witness :
    c8Mask.length = ((c8Base [] []).2).length
    ∧ (MainModel.init c8Base [] 0).dropout_p = 3 / 10
    ∧ (MainModel.forward (MainModel.init c8Base [] 0) true c8Mask [] []).length
        = ((c8Base [] []).2).length
    ∧ ∀ row ∈ MainModel.forward (MainModel.init c8Base [] 0) true c8Mask [] [],
        row.length = 1 :=
  ⟨rfl, (C8_mainmodel_forward c8Base [] 0 c8Mask [] [] true rfl).1,
    (C8_mainmodel_forward c8Base [] 0 c8Mask [] [] true rfl).2.2.2.2.1,
    (C8_mainmodel_forward c8Base [] 0 c8Mask [] [] true rfl).2.2.2.2.2⟩

/-- C9: the hyperparameter snapshot captured at module construction is never
mutated afterwards: every lifecycle operation (step variants, epoch-end
variants, configure_optimizers) of each of the three task modules leaves the
stored hyperparameters unchanged. -/
theorem C9_hparams_immutable :
    (∀ {P : Type} (s : SequenceClassicationLightningModule.ModuleState P)
        (op : SequenceClassicationLightningModule.Op P),
      (SequenceClassicationLightningModule.applyOp s op).1.hparams = s.hparams)
    ∧ (∀ {F P : Type} (s : LightningModuleForTokenClassification.ModuleState F P)
        (op : LightningModuleForTokenClassification.Op F),
      (LightningModuleForTokenClassification.applyOp s op).1.hparams = s.hparams)
    ∧ (∀ {F P : Type} (s : LightningModuleForAutoModels.ModuleState F P)
        (op : LightningModuleForAutoModels.Op F),
      (LightningModuleForAutoModels.applyOp s op).1.hparams = s.hparams) := by
  refine ⟨?_, ?_, ?_⟩
  · intro P s op
    cases op <;> rfl
  · intro F P s op
    cases op <;> rfl
  · intro F P s op
    cases op <;> rfl

/-- C10: for a binary batch of exactly one sample, shared_step fails with a
shape-mismatch error because squeeze collapses the (1, 1) logit tensor to a
0-dimensional scalar while the target stays one-dimensional; for batches of
two or more samples with matching target shape the loss computation
succeeds. -/
theorem C10_binary_single_sample_shape_mismatch
    (model : torch.Tensor ℤ → torch.Tensor ℤ → torch.Tensor ℝ)
    (batch : SequenceClassicationLightningModule.Batch) (n : ℕ)
    (hlog : (model batch.ids_seq batch.attn_masks).shape = [n, 1])
    (htar : batch.target.shape = [n]) :
    (n = 1 → (SequenceClassicationLightningModule.shared_step model batch).isOk = false)
    ∧ (2 ≤ n → (SequenceClassicationLightningModule.shared_step model batch).isOk = true) := by
  constructor
  · rintro rfl
    have hs : ((model batch.ids_seq batch.attn_masks).squeeze).shape = [] := by
      simp [torch.Tensor.squeeze, hlog]
    simp [SequenceClassicationLightningModule.shared_step,
      SequenceClassicationLightningModule.loss, torch.BCEWithLogitsLoss, hs, htar,
      Except.isOk, Except.toBool]
  · intro h2
    have hn1 : n ≠ 1 := by omega
    have hs : ((model batch.ids_seq batch.attn_masks).squeeze).shape = [n] := by
      simp [torch.Tensor.squeeze, hlog, List.filter, hn1]
    simp [SequenceClassicationLightningModule.shared_step,
      SequenceClassicationLightningModule.loss, torch.BCEWithLogitsLoss, hs, htar,
      Except.isOk, Except.toBool]

theorem C10_binary_single_sample_shape_mismatch_witness :
    (c10Model1 c10Batch1.ids_seq c10Batch1.attn_masks).shape = [1, 1]
    ∧ c10Batch1.target.shape = [1]
    ∧ (SequenceClassicationLightningModule.shared_step c10Model1 c10Batch1).isOk = false
    ∧ (c10Model2 c10Batch2.ids_seq c10Batch2.attn_masks).shape = [2, 1]
    ∧ c10Batch2.target.shape = [2]
    ∧ (SequenceClassicationLightningModule.shared_step c10Model2 c10Batch2).isOk = true :=
  ⟨rfl, rfl,
    (C10_binary_single_sample_shape_mismatch c10Model1 c10Batch1 1 rfl rfl).1 rfl,
    rfl, rfl,
    (C10_binary_single_sample_shape_mismatch c10Model2 c10Batch2 2 rfl rfl).2 (by norm_num)⟩
